import Mathlib

/-!
# Verification of the natal-chart computation pipeline

Shallow embedding of `src/utils/natal_csv_generator.py` (module
`natal_csv_generator`): the zodiac projection `_longitude_to_sign`, the
ascendant estimator `_best_match_ascendant`, the chart computation
`compute_natal_chart`, and the row synthesizer `build_csv_row`, together
with theorems settling the specification claims about them.

Modelling conventions:
* Python floats are embedded as `ℚ` (the computation is exact-arithmetic
  over the values the claims discuss; no rounding behaviour is claimed).
* Python's `%` on numbers is floored modulus (`pymod` below).
* Fallible external calls (skyfield, pytz) are fields of an explicit
  environment `Env`; `Except Unit` models "raises an exception" as
  `.error ()`.  `try/except` becomes a `match` on the `Except` value.
* Python dicts with string keys appear as insertion-ordered association
  lists; `d.get(k, default)` becomes `(l.lookup k).getD default`.
-/

/-- `SIGN_ORDER` from the source: the fixed ordered list of 12 signs. -/
def SIGN_ORDER : List String :=
  ["Aries", "Taurus", "Gemini", "Cancer", "Leo", "Virgo",
   "Libra", "Scorpio", "Sagittarius", "Capricorn", "Aquarius", "Pisces"]

/-- `SIGN_ELEMENTS` from the source (insertion order preserved). -/
def SIGN_ELEMENTS : List (String × String) :=
  [("Aries", "Fire"), ("Leo", "Fire"), ("Sagittarius", "Fire"),
   ("Taurus", "Earth"), ("Virgo", "Earth"), ("Capricorn", "Earth"),
   ("Gemini", "Air"), ("Libra", "Air"), ("Aquarius", "Air"),
   ("Cancer", "Water"), ("Scorpio", "Water"), ("Pisces", "Water")]

/-- `SIGN_MODALITIES` from the source. -/
def SIGN_MODALITIES : List (String × String) :=
  [("Aries", "Cardinal"), ("Cancer", "Cardinal"), ("Libra", "Cardinal"),
   ("Capricorn", "Cardinal"), ("Taurus", "Fixed"), ("Leo", "Fixed"),
   ("Scorpio", "Fixed"), ("Aquarius", "Fixed"), ("Gemini", "Mutable"),
   ("Virgo", "Mutable"), ("Sagittarius", "Mutable"), ("Pisces", "Mutable")]

/-- `SIGN_DATE_RANGES` from the source. -/
def SIGN_DATE_RANGES : List (String × String) :=
  [("Aries", "Mar 21 - Apr 19"), ("Taurus", "Apr 20 - May 20"),
   ("Gemini", "May 21 - Jun 20"), ("Cancer", "Jun 21 - Jul 22"),
   ("Leo", "Jul 23 - Aug 22"), ("Virgo", "Aug 23 - Sep 22"),
   ("Libra", "Sep 23 - Oct 22"), ("Scorpio", "Oct 23 - Nov 21"),
   ("Sagittarius", "Nov 22 - Dec 21"), ("Capricorn", "Dec 22 - Jan 19"),
   ("Aquarius", "Jan 20 - Feb 18"), ("Pisces", "Feb 19 - Mar 20")]

/-- `CHART_RULERS` from the source. -/
def CHART_RULERS : List (String × String) :=
  [("Aries", "Mars"), ("Taurus", "Venus"), ("Gemini", "Mercury"),
   ("Cancer", "Moon"), ("Leo", "Sun"), ("Virgo", "Mercury"),
   ("Libra", "Venus"), ("Scorpio", "Pluto"), ("Sagittarius", "Jupiter"),
   ("Capricorn", "Saturn"), ("Aquarius", "Uranus"), ("Pisces", "Neptune")]

/-- Python's `%` on numbers: floored modulus `a - b * ⌊a / b⌋`
(for `b > 0` the result lies in `[0, b)`). -/
def pymod (a b : ℚ) : ℚ := a - b * ⌊a / b⌋

/-- `_longitude_to_sign` from the source:
`normalized = longitude % 360`, `sign_index = int(normalized // 30)`,
`degree_in_sign = normalized % 30`, returning
`(SIGN_ORDER[sign_index], degree_in_sign)`.  The list indexing is embedded
with a default string standing for Python's `IndexError`; the theorems
below prove the index is always in range, so the default is unreachable. -/
def longitude_to_sign (longitude : ℚ) : String × ℚ :=
  let normalized := pymod longitude 360
  let sign_index := (⌊normalized / 30⌋).toNat
  let degree_in_sign := pymod normalized 30
  (SIGN_ORDER.getD sign_index "IndexError", degree_in_sign)

/-- Outcome of constructing and observing one candidate point in
`_best_match_ascendant`'s loop body
(`Star(ecliptic_latlon=...)` followed by `observe(...).apparent().altaz()`):
either it succeeds with an altitude and azimuth in degrees, or it raises one
of the exception types named in the inner `except (AttributeError,
TypeError, ValueError)` clause (`caught`), or it raises any other
exception, which escapes the loop to the outer `except Exception`
(`uncaught`). -/
inductive ObsResult where
  | ok (alt az : ℚ)
  | caught
  | uncaught
deriving DecidableEq

/-- The candidate grid `[x * 0.5 for x in range(0, 720)]` from the source. -/
def candidates : List ℚ := (List.range 720).map (fun x : ℕ => (x : ℚ) * 0.5)

/-- One iteration of the loop body's conditional update:
`if score < best_score: best_score, best_longitude = score, longitude`.
The initial `best_score = float("inf")` is modelled by `none`, which every
finite score beats. -/
def stepBest (s : Option ℚ × ℚ) (score longitude : ℚ) : Option ℚ × ℚ :=
  match s.1 with
  | none => (some score, longitude)
  | some best_score =>
      if score < best_score then (some score, longitude) else s

/-- The candidate loop of `_best_match_ascendant`: for each longitude in
order, observe it (`obs`); on success update the running best with score
`abs(alt.degrees) + abs(az.degrees - 90)`; on a caught exception `continue`;
on any other exception abort with `.error` (the exception propagates out of
the loop). -/
def runSearch (obs : ℚ → ObsResult) : List ℚ → Option ℚ × ℚ → Except Unit (Option ℚ × ℚ)
  | [], s => .ok s
  | longitude :: rest, s =>
      match obs longitude with
      | .ok alt az => runSearch obs rest (stepBest s (|alt| + |az - 90|) longitude)
      | .caught => runSearch obs rest s
      | .uncaught => .error ()

/-- The body of `_best_match_ascendant` run over an explicit candidate
list: the loop starting from `best_score = inf`, `best_longitude = 0.0`,
then `_longitude_to_sign(best_longitude)`; the outer `except Exception`
turns an escaped exception into the default `("Aries", 0.0)`. -/
def searchOver (obs : ℚ → ObsResult) (cands : List ℚ) : String × ℚ :=
  match runSearch obs cands (none, 0) with
  | .ok s => longitude_to_sign s.2
  | .error _ => ("Aries", 0)

/-- `_best_match_ascendant` from the source.  The `(observer, ts_time)`
pair together with skyfield's behaviour is abstracted into the single
oracle `obs` mapping a candidate ecliptic longitude to the outcome of
constructing and observing its `Star`. -/
def best_match_ascendant (obs : ℚ → ObsResult) : String × ℚ :=
  searchOver obs candidates

/-- One `{"sign": ..., "degree": ...}` inner dict of the planets map. -/
structure SignPlacement where
  sign : String
  degree : ℚ
deriving DecidableEq

/-- `NatalInputs` from the source.  The naive `birth_datetime` is an
abstract token (`ℕ`), since the chart computation only threads it through
external calls. -/
structure NatalInputs where
  name : String
  birth_datetime : ℕ
  latitude : ℚ
  longitude : ℚ
  timezone : String := "UTC"

/-- A loaded ephemeris: `ephemeris[key]` is `lookup key`, where `.error`
models a raised `KeyError` (or any other lookup failure). Bodies are
abstract tokens (`ℕ`). -/
structure Ephemeris where
  lookup : String → Except Unit ℕ

/-- The external world consumed by `compute_natal_chart`: each fallible
skyfield/pytz call site is one field, with `.error ()` modelling a raised
exception.  `loadEph` is the result of `_safe_load_ephemeris()` (which
already converts a raised exception into `None`). -/
structure Env where
  loadEph : Option Ephemeris
  loadTimescale : Except Unit ℕ
  pytzTimezone : String → Except Unit ℕ
  localize : ℕ → ℕ → Except Unit ℕ
  fromDatetime : ℕ → ℕ → Except Unit ℕ
  combineObserver : ℕ → ℚ → ℚ → Except Unit ℕ
  observeLongitude : ℕ → ℕ → ℕ → Except Unit ℚ
  observeAltAz : ℕ → ℕ → ℚ → ObsResult

/-- The `bodies` dict literal of `compute_natal_chart`: display name paired
with the ephemeris key it is looked up under. -/
def bodies_spec : List (String × String) :=
  [("Sun", "sun"), ("Moon", "moon"), ("Mercury", "mercury"),
   ("Venus", "venus"), ("Mars", "mars"),
   ("Jupiter", "jupiter barycenter"), ("Saturn", "saturn barycenter"),
   ("Uranus", "uranus barycenter"), ("Neptune", "neptune barycenter"),
   ("Pluto", "pluto barycenter")]

/-- `_placeholder_planets` from the source: the ten bodies and
`"Ascendant"`, each mapped to sign `"Unknown"` with degree `0.0`. -/
def placeholder_planets : List (String × SignPlacement) :=
  (["Sun", "Moon", "Mercury", "Venus", "Mars", "Jupiter", "Saturn",
    "Uranus", "Neptune", "Pluto"].map
      (fun n => (n, SignPlacement.mk "Unknown" 0)))
  ++ [("Ascendant", SignPlacement.mk "Unknown" 0)]

/-- Sequencing of a Python `for` loop whose body may raise: the results are
accumulated in order, and a raised exception midway discards the whole
accumulation (it will be caught by the enclosing `try`). -/
def mapExcept (f : α → Except Unit β) : List α → Except Unit (List β)
  | [] => .ok []
  | a :: as => do
      let b ← f a
      let bs ← mapExcept f as
      pure (b :: bs)

/-- The `try:` block of `compute_natal_chart`, given the already-loaded
ephemeris: timescale, timezone resolution, localization, conversion to a
skyfield time, the `earth` lookup, observer construction, the `bodies`
dict literal (ten ephemeris lookups), the per-body observation loop, and
the ascendant estimate.  `.error ()` at any step models the corresponding
raised exception reaching the enclosing `except Exception`. -/
def computeChartCore (env : Env) (inputs : NatalInputs) (ephemeris : Ephemeris) :
    Except Unit (List (String × SignPlacement)) := do
  let ts ← env.loadTimescale
  let timezone ← env.pytzTimezone inputs.timezone
  let localized_dt ← env.localize timezone inputs.birth_datetime
  let ts_time ← env.fromDatetime ts localized_dt
  let earth ← ephemeris.lookup "earth"
  let observer ← env.combineObserver earth inputs.latitude inputs.longitude
  let bodies ← mapExcept (fun p => do
      let target ← ephemeris.lookup p.2
      pure (p.1, target)) bodies_spec
  let planets ← mapExcept (fun p => do
      let ecliptic_lon ← env.observeLongitude observer ts_time p.2
      pure (p.1, SignPlacement.mk (longitude_to_sign ecliptic_lon).1
                   (longitude_to_sign ecliptic_lon).2)) bodies
  let asc := best_match_ascendant (env.observeAltAz observer ts_time)
  pure (planets ++ [("Ascendant", SignPlacement.mk asc.1 asc.2)])

/-- `compute_natal_chart` from the source: placeholder when
`_safe_load_ephemeris()` returned `None`, otherwise the `try:` block with
`except Exception: return _placeholder_planets()`. -/
def compute_natal_chart (env : Env) (inputs : NatalInputs) :
    List (String × SignPlacement) :=
  match env.loadEph with
  | none => placeholder_planets
  | some ephemeris =>
      match computeChartCore env inputs ephemeris with
      | .ok planets => planets
      | .error _ => placeholder_planets

/-- Python's `max(iterable, key=...)` over an association list of totals:
the first key attaining the maximal value (iteration order = insertion
order; `max` keeps the earlier element on ties). -/
def pymax_first (l : List (String × ℚ)) : String :=
  match l with
  | [] => ""
  | p :: ps => (ps.foldl (fun best q => if best.2 < q.2 then q else best) p).1

/-- The element-weight dict of `_dominant_element`. -/
def element_weights : List (String × ℚ) :=
  [("Sun", 3), ("Moon", 3), ("Ascendant", 3),
   ("Mercury", 2), ("Venus", 2), ("Mars", 2)]

/-- Totals of `_dominant_element`, keyed `Fire`, `Earth`, `Air`, `Water`. -/
structure ElemTotals where
  fire : ℚ
  earth : ℚ
  air : ℚ
  water : ℚ

/-- `totals[element] += w` for the four element keys.  `_dominant_element`
only produces one of the four keys, so the final catch-all is
unreachable. -/
def bumpElem (t : ElemTotals) (element : String) (w : ℚ) : ElemTotals :=
  if element = "Fire" then { t with fire := t.fire + w }
  else if element = "Earth" then { t with earth := t.earth + w }
  else if element = "Air" then { t with air := t.air + w }
  else if element = "Water" then { t with water := t.water + w }
  else t

/-- `_dominant_element` from the source: each entry's sign is mapped
through `SIGN_ELEMENTS.get(sign, "Earth")` — note the `"Earth"` default —
and its weight (`weights.get(planet, 1)`) is added to that element's
total; the result is the first maximal total in insertion order. -/
def dominant_element (planets : List (String × SignPlacement)) : String :=
  let totals := planets.foldl
    (fun t p =>
      bumpElem t ((SIGN_ELEMENTS.lookup p.2.sign).getD "Earth")
        ((element_weights.lookup p.1).getD 1))
    (ElemTotals.mk 0 0 0 0)
  pymax_first
    [("Fire", totals.fire), ("Earth", totals.earth),
     ("Air", totals.air), ("Water", totals.water)]

/-- Totals of `_dominant_modality`. -/
structure ModTotals where
  cardinal : ℚ
  fixedM : ℚ
  mutableM : ℚ

/-- `totals[modality] += 1` for the three modality keys. -/
def bumpMod (t : ModTotals) (modality : String) : ModTotals :=
  if modality = "Cardinal" then { t with cardinal := t.cardinal + 1 }
  else if modality = "Fixed" then { t with fixedM := t.fixedM + 1 }
  else if modality = "Mutable" then { t with mutableM := t.mutableM + 1 }
  else t

/-- `_dominant_modality` from the source: `SIGN_MODALITIES.get(sign)`
with no default — a sign with no modality (such as `"Unknown"`) is
skipped by the `if modality:` guard. -/
def dominant_modality (planets : List (String × SignPlacement)) : String :=
  let totals := planets.foldl
    (fun t p =>
      match SIGN_MODALITIES.lookup p.2.sign with
      | some modality => bumpMod t modality
      | none => t)
    (ModTotals.mk 0 0 0)
  pymax_first
    [("Cardinal", totals.cardinal), ("Fixed", totals.fixedM),
     ("Mutable", totals.mutableM)]

/-- `planets.get(planet, {}).get("sign", "Unknown")` from `build_csv_row`. -/
def planet_sign (planets : List (String × SignPlacement)) (planet : String) : String :=
  ((planets.lookup planet).map SignPlacement.sign).getD "Unknown"

/-- `build_csv_row` from the source, as the ordered list of
`(column, value)` pairs of the returned dict. -/
def build_csv_row (planets : List (String × SignPlacement)) (inputs : NatalInputs) :
    List (String × String) :=
  let sun_sign := planet_sign planets "Sun"
  let moon_sign := planet_sign planets "Moon"
  let rising_sign := planet_sign planets "Ascendant"
  let dom_element := dominant_element planets
  let dom_modality := dominant_modality planets
  let chart_ruler := (CHART_RULERS.lookup rising_sign).getD ""
  [("Name", inputs.name),
   ("SunSign", sun_sign),
   ("MoonSign", moon_sign),
   ("Rising", rising_sign),
   ("DateRange", (SIGN_DATE_RANGES.lookup sun_sign).getD ""),
   ("Mercury", planet_sign planets "Mercury"),
   ("Venus", planet_sign planets "Venus"),
   ("Mars", planet_sign planets "Mars"),
   ("Jupiter", planet_sign planets "Jupiter"),
   ("Saturn", planet_sign planets "Saturn"),
   ("Uranus", planet_sign planets "Uranus"),
   ("Neptune", planet_sign planets "Neptune"),
   ("Pluto", planet_sign planets "Pluto"),
   ("NorthNode", "Calculated node data unavailable in offline mode"),
   ("Chiron", "Calculated Chiron data unavailable in offline mode"),
   ("Element", dom_element),
   ("Modality", dom_modality),
   ("DominantPlanet", if sun_sign = "" then "" else "Sun"),
   ("ChartRuler", chart_ruler),
   ("SoulPurpose",
    "Evolve through " ++ sun_sign ++ " virtues while rising as " ++ rising_sign ++ "."),
   ("ShadowWork",
    "Integrate the lessons of " ++ planet_sign planets "Pluto" ++ " and " ++
      planet_sign planets "Saturn" ++ "."),
   ("LifeLesson",
    "Discipline of " ++ planet_sign planets "Saturn" ++ " in a " ++
      dom_modality ++ " path."),
   ("CoreWound", "Chiron themes require further calculation."),
   ("GiftToWorld",
    "Jupiter in " ++ planet_sign planets "Jupiter" ++ " expands your influence.")]

/-- A fixed `NatalInputs` value used to instantiate closed statements. -/
def someInputs : NatalInputs :=
  { name := "Test", birth_datetime := 0, latitude := 40, longitude := -74,
    timezone := "UTC" }

/-- An environment whose ephemeris load failed (`_safe_load_ephemeris`
returned `None`); every other call succeeds. -/
def envNoEph : Env :=
  { loadEph := none
    loadTimescale := .ok 0
    pytzTimezone := fun _ => .ok 0
    localize := fun _ _ => .ok 0
    fromDatetime := fun _ _ => .ok 0
    combineObserver := fun _ _ _ => .ok 0
    observeLongitude := fun _ _ _ => .ok 0
    observeAltAz := fun _ _ _ => ObsResult.ok 0 90 }

/-- An ephemeris in which every key resolves. -/
def ephOK : Ephemeris := { lookup := fun _ => .ok 0 }

/-- A fully healthy environment. -/
def envOK : Env := { envNoEph with loadEph := some ephOK }

/-- A healthy environment except that `pytz.timezone` raises. -/
def envBadTz : Env := { envOK with pytzTimezone := fun _ => .error () }

/-- An ephemeris in which exactly the key `"jupiter barycenter"` is
missing (its lookup raises `KeyError`). -/
def ephNoJupiterBary : Ephemeris :=
  { lookup := fun k => if k = "jupiter barycenter" then .error () else .ok 0 }

/-- A healthy environment whose ephemeris lacks `"jupiter barycenter"`. -/
def envNoJupiterBary : Env := { envOK with loadEph := some ephNoJupiterBary }

/-- An observation oracle that raises an uncatchable (non-inner-handler)
exception at candidate longitude `0.0` and observes every other candidate
exactly on the horizon due east. -/
def obsFaultAtZero : ℚ → ObsResult :=
  fun l => if l = 0 then ObsResult.uncaught else ObsResult.ok 0 90

/-- The same oracle but with the fault at `0.0` being one of the caught
exception types (`AttributeError`/`TypeError`/`ValueError`). -/
def obsCaughtAtZero : ℚ → ObsResult :=
  fun l => if l = 0 then ObsResult.caught else ObsResult.ok 0 90

/-- The scoring function of the ascendant search:
`abs(alt.degrees) + abs(az.degrees - 90)`. -/
def scoreOf (alt az : ℚ → ℚ) (l : ℚ) : ℚ := |alt l| + |az l - 90|

/-- The all-`"Taurus"` analogue of the placeholder map, used to exhibit
that `"Unknown"` and a real Earth sign are conflated by
`_dominant_element`. -/
def allTaurus : List (String × SignPlacement) :=
  (["Sun", "Moon", "Mercury", "Venus", "Mars", "Jupiter", "Saturn",
    "Uranus", "Neptune", "Pluto"].map
      (fun n => (n, SignPlacement.mk "Taurus" 0)))
  ++ [("Ascendant", SignPlacement.mk "Taurus" 0)]

/-- The candidate grid with its first element `0.0` removed, written in
closed form: `0.5, 1.0, ..., 359.5`. -/
def tailCandidates : List ℚ := (List.range 719).map (fun x : ℕ => ((x : ℚ) + 1) * 0.5)

/-! ## Helper lemmas: `pymod` and `longitude_to_sign` -/

theorem pymod_eq_mul_fract (a : ℚ) {b : ℚ} (hb : b ≠ 0) :
    pymod a b = b * Int.fract (a / b) := by
  unfold pymod Int.fract
  field_simp

theorem pymod_nonneg (a : ℚ) {b : ℚ} (hb : 0 < b) : 0 ≤ pymod a b := by
  rw [pymod_eq_mul_fract a hb.ne.symm]
  have := Int.fract_nonneg (a / b)
  positivity

theorem pymod_lt (a : ℚ) {b : ℚ} (hb : 0 < b) : pymod a b < b := by
  rw [pymod_eq_mul_fract a hb.ne.symm]
  calc b * Int.fract (a / b) < b * 1 :=
        mul_lt_mul_of_pos_left (Int.fract_lt_one (a / b)) hb
    _ = b := mul_one b

theorem sign_index_lt (L : ℚ) : (⌊pymod L 360 / 30⌋).toNat < 12 := by
  have h0 : (0 : ℚ) ≤ pymod L 360 := pymod_nonneg L (by norm_num)
  have h1 : pymod L 360 < 360 := pymod_lt L (by norm_num)
  have hlt : ⌊pymod L 360 / 30⌋ < 12 := by
    rw [Int.floor_lt]
    rw [div_lt_iff₀ (by norm_num : (0:ℚ) < 30)]
    push_cast
    linarith
  omega

theorem longitude_to_sign_eq (L : ℚ) :
    longitude_to_sign L =
      (SIGN_ORDER.getD (⌊pymod L 360 / 30⌋).toNat "IndexError",
       pymod (pymod L 360) 30) := rfl

theorem longitude_to_sign_sign_mem (L : ℚ) :
    (longitude_to_sign L).1 ∈ SIGN_ORDER := by
  rw [longitude_to_sign_eq]
  have h : (⌊pymod L 360 / 30⌋).toNat < SIGN_ORDER.length := sign_index_lt L
  simp only []
  rw [List.getD_eq_getElem _ _ h]
  exact List.getElem_mem h

theorem longitude_to_sign_deg_nonneg (L : ℚ) : 0 ≤ (longitude_to_sign L).2 :=
  pymod_nonneg _ (by norm_num)

theorem longitude_to_sign_deg_lt (L : ℚ) : (longitude_to_sign L).2 < 30 :=
  pymod_lt _ (by norm_num)

/-! ## Helper lemmas: `mapExcept` -/

theorem mapExcept_ok_mem {α β : Type} {f : α → Except Unit β} :
    ∀ {l : List α} {r : List β}, mapExcept f l = .ok r →
      ∀ b ∈ r, ∃ a ∈ l, f a = .ok b := by
  intro l
  induction l with
  | nil =>
      intro r hr b hb
      simp only [mapExcept] at hr
      cases hr
      simp at hb
  | cons a as ih =>
      intro r hr b hb
      simp only [mapExcept, bind, Except.bind] at hr
      cases ha : f a with
      | error e => rw [ha] at hr; cases hr
      | ok b0 =>
          rw [ha] at hr
          cases hrest : mapExcept f as with
          | error e => rw [hrest] at hr; cases hr
          | ok bs =>
              rw [hrest] at hr
              simp only [pure, Except.pure, Except.ok.injEq] at hr
              subst hr
              rcases List.mem_cons.mp hb with rfl | hmem
              · exact ⟨a, List.mem_cons_self a as, ha⟩
              · obtain ⟨a', ha', hfa'⟩ := ih hrest b hmem
                exact ⟨a', List.mem_cons_of_mem a ha', hfa'⟩

theorem mapExcept_error_of_mem {α β : Type} {f : α → Except Unit β}
    {l : List α} {a : α} (ha : a ∈ l) (he : f a = .error ()) :
    mapExcept f l = .error () := by
  induction l with
  | nil => simp at ha
  | cons x xs ih =>
      simp only [mapExcept, bind, Except.bind]
      rcases List.mem_cons.mp ha with rfl | hmem
      · rw [he]
      · cases hx : f x with
        | error e => rfl
        | ok b => rw [ih hmem]

/-! ## Helper lemmas: the ascendant search loop -/

theorem runSearch_error_of_uncaught {obs : ℚ → ObsResult} :
    ∀ {cands : List ℚ} {c : ℚ}, c ∈ cands → obs c = .uncaught →
      ∀ s, runSearch obs cands s = .error () := by
  intro cands
  induction cands with
  | nil => intro c hc; simp at hc
  | cons x xs ih =>
      intro c hc hu s
      rcases List.mem_cons.mp hc with rfl | hmem
      · simp only [runSearch, hu]
      · cases hx : obs x with
        | ok alt az => simp only [runSearch, hx]; exact ih hmem hu _
        | caught => simp only [runSearch, hx]; exact ih hmem hu _
        | uncaught => simp only [runSearch, hx]

theorem runSearch_skip_caught {obs : ℚ → ObsResult} {c : ℚ}
    (hc : obs c = .caught) :
    ∀ (xs ys : List ℚ) (s : Option ℚ × ℚ),
      runSearch obs (xs ++ c :: ys) s = runSearch obs (xs ++ ys) s := by
  intro xs
  induction xs with
  | nil => intro ys s; simp only [List.nil_append, runSearch, hc]
  | cons x xs ih =>
      intro ys s
      cases hx : obs x with
      | ok alt az =>
          simp only [List.cons_append, runSearch, hx]
          exact ih ys _
      | caught =>
          simp only [List.cons_append, runSearch, hx]
          exact ih ys _
      | uncaught => simp only [List.cons_append, runSearch, hx]

theorem runSearch_argAux {obs : ℚ → ObsResult} {alt az : ℚ → ℚ} :
    ∀ (ls : List ℚ) (b : ℚ),
      (∀ l ∈ ls, obs l = .ok (alt l) (az l)) →
      ∃ m, ls.foldl (List.argAux fun x y => scoreOf alt az x < scoreOf alt az y)
              (some b) = some m ∧
        runSearch obs ls (some (scoreOf alt az b), b) =
          .ok (some (scoreOf alt az m), m) := by
  intro ls
  induction ls with
  | nil => intro b _; exact ⟨b, rfl, rfl⟩
  | cons l ls ih =>
      intro b hall
      have hl : obs l = .ok (alt l) (az l) := hall l (List.mem_cons_self l ls)
      have htail : ∀ x ∈ ls, obs x = .ok (alt x) (az x) :=
        fun x hx => hall x (List.mem_cons_of_mem l hx)
      have hrs : runSearch obs (l :: ls) (some (scoreOf alt az b), b) =
          runSearch obs ls
            (stepBest (some (scoreOf alt az b), b) (scoreOf alt az l) l) := by
        simp only [runSearch, hl]
        rfl
      have hstep : stepBest (some (scoreOf alt az b), b) (scoreOf alt az l) l =
          if scoreOf alt az l < scoreOf alt az b
          then (some (scoreOf alt az l), l)
          else (some (scoreOf alt az b), b) := rfl
      have harg : (List.argAux fun x y =>
            scoreOf alt az x < scoreOf alt az y) (some b) l =
          if scoreOf alt az l < scoreOf alt az b then some l else some b := rfl
      rw [List.foldl_cons, harg, hrs, hstep]
      by_cases hlt : scoreOf alt az l < scoreOf alt az b
      · rw [if_pos hlt, if_pos hlt]
        exact ih l htail
      · rw [if_neg hlt, if_neg hlt]
        exact ih b htail

theorem searchOver_all_ok {obs : ℚ → ObsResult} {alt az : ℚ → ℚ}
    (cands : List ℚ) (hne : cands ≠ [])
    (hall : ∀ l ∈ cands, obs l = .ok (alt l) (az l)) :
    ∃ m, cands.argmin (scoreOf alt az) = some m ∧
      searchOver obs cands = longitude_to_sign m := by
  obtain ⟨c, rest, rfl⟩ := List.exists_cons_of_ne_nil hne
  have hc : obs c = .ok (alt c) (az c) := hall c (List.mem_cons_self c rest)
  have htail : ∀ x ∈ rest, obs x = .ok (alt x) (az x) :=
    fun x hx => hall x (List.mem_cons_of_mem c hx)
  obtain ⟨m, hm1, hm2⟩ := runSearch_argAux rest c htail
  refine ⟨m, ?_, ?_⟩
  · rw [List.argmin, List.foldl_cons, ← hm1]
    rfl
  · unfold searchOver
    have hstep : stepBest (none, 0) (|alt c| + |az c - 90|) c =
        (some (scoreOf alt az c), c) := rfl
    simp only [runSearch, hc, hstep, hm2]

/-! ## Helper lemmas: the candidate grid -/

theorem candidates_length : candidates.length = 720 := by
  unfold candidates
  rw [List.length_map, List.length_range]

theorem candidates_ne_nil : candidates ≠ [] := by
  intro h
  have h1 := candidates_length
  rw [h, List.length_nil] at h1
  exact absurd h1 (by norm_num)

theorem candidates_sorted : candidates.Pairwise (· < ·) := by
  unfold candidates
  refine List.Pairwise.map _ ?_ (List.pairwise_lt_range 720)
  intro a b hab
  have ha : (a : ℚ) < (b : ℚ) := by exact_mod_cast hab
  have h05 : (0 : ℚ) < 0.5 := by norm_num
  exact mul_lt_mul_of_pos_right ha h05

theorem candidates_getD (i : Fin 720) :
    candidates.getD (i : ℕ) 0 = (i : ℚ) * 0.5 := by
  have hi : (i : ℕ) < candidates.length := by
    rw [candidates_length]; exact i.isLt
  rw [List.getD_eq_getElem _ _ hi]
  simp only [candidates, List.getElem_map, List.getElem_range]

theorem zero_mem_candidates : (0 : ℚ) ∈ candidates := by
  unfold candidates
  exact List.mem_map.mpr ⟨0, List.mem_range.mpr (by norm_num), by norm_num⟩

theorem candidates_eq_cons : candidates = 0 :: tailCandidates := by
  unfold candidates tailCandidates
  rw [show (720 : ℕ) = 719 + 1 from rfl, List.range_succ_eq_map]
  simp only [List.map_cons, List.map_map]
  refine List.cons_eq_cons.mpr ⟨by norm_num, ?_⟩
  refine List.map_congr_left ?_
  intro x _
  simp only [Function.comp_apply]
  push_cast
  ring

theorem tailCandidates_eq_cons :
    tailCandidates = (1/2 : ℚ) :: (List.range 718).map (fun x : ℕ => ((x : ℚ) + 2) * 0.5) := by
  unfold tailCandidates
  rw [show (719 : ℕ) = 718 + 1 from rfl, List.range_succ_eq_map]
  simp only [List.map_cons, List.map_map]
  refine List.cons_eq_cons.mpr ⟨by norm_num, ?_⟩
  refine List.map_congr_left ?_
  intro x _
  simp only [Function.comp_apply]
  push_cast
  ring

theorem tailCandidates_pos {l : ℚ} (hl : l ∈ tailCandidates) : 0 < l := by
  unfold tailCandidates at hl
  rcases List.mem_map.mp hl with ⟨n, _, hfn⟩
  rw [← hfn]
  have hx : (0 : ℚ) ≤ (n : ℚ) := Nat.cast_nonneg n
  nlinarith

/-! ## Helper lemmas: more search facts -/

theorem runSearch_all_caught {obs : ℚ → ObsResult} :
    ∀ {ls : List ℚ}, (∀ l ∈ ls, obs l = .caught) →
      ∀ s, runSearch obs ls s = .ok s := by
  intro ls
  induction ls with
  | nil => intro _ s; rfl
  | cons x xs ih =>
      intro h s
      have hx : obs x = .caught := h x (List.mem_cons_self x xs)
      simp only [runSearch, hx]
      exact ih (fun l hl => h l (List.mem_cons_of_mem x hl)) s

theorem searchOver_error {obs : ℚ → ObsResult} {cands : List ℚ}
    (h : runSearch obs cands (none, 0) = .error ()) :
    searchOver obs cands = ("Aries", 0) := by
  unfold searchOver
  rw [h]

theorem longitude_to_sign_zero : longitude_to_sign 0 = ("Aries", 0) := by
  rw [longitude_to_sign_eq]
  have h1 : pymod 0 360 = 0 := by unfold pymod; norm_num
  rw [h1]
  have h2 : pymod 0 30 = 0 := by unfold pymod; norm_num
  rw [h2]
  norm_num
  rfl

theorem longitude_to_sign_half : longitude_to_sign (1/2) = ("Aries", 1/2) := by
  rw [longitude_to_sign_eq]
  have h1 : pymod (1/2) 360 = 1/2 := by unfold pymod; norm_num
  rw [h1]
  have h2 : pymod (1/2) 30 = 1/2 := by unfold pymod; norm_num
  rw [h2]
  norm_num
  rfl

theorem best_match_ascendant_cases (obs : ℚ → ObsResult) :
    best_match_ascendant obs = ("Aries", 0) ∨
      ∃ L, best_match_ascendant obs = longitude_to_sign L := by
  unfold best_match_ascendant searchOver
  cases runSearch obs candidates (none, 0) with
  | ok s => exact Or.inr ⟨s.2, rfl⟩
  | error e => exact Or.inl rfl

theorem foldl_argAux_stay {r : ℚ → ℚ → Prop} [DecidableRel r] {b : ℚ} :
    ∀ {ls : List ℚ}, (∀ x ∈ ls, ¬ r x b) →
      ls.foldl (List.argAux r) (some b) = some b := by
  intro ls
  induction ls with
  | nil => intro _; rfl
  | cons x xs ih =>
      intro h
      have hx : ¬ r x b := h x (List.mem_cons_self x xs)
      have harg : List.argAux r (some b) x = some b := by
        simp only [List.argAux]
        rw [if_neg hx]
      rw [List.foldl_cons, harg]
      exact ih (fun y hy => h y (List.mem_cons_of_mem x hy))

theorem argmin_const_score {f : ℚ → ℚ} {x : ℚ} {xs : List ℚ}
    (h : ∀ a ∈ xs, f a = f x) : (x :: xs).argmin f = some x := by
  rw [List.argmin, List.foldl_cons]
  have h0 : (List.argAux fun p q => f p < f q) none x = some x := rfl
  rw [h0]
  refine foldl_argAux_stay ?_
  intro a ha
  rw [h a ha]
  exact lt_irrefl _

/-! ## Helper lemmas: the placeholder map -/

theorem placeholder_entries :
    ∀ p ∈ placeholder_planets, p.2 = SignPlacement.mk "Unknown" 0 := by
  intro p hp
  simp only [placeholder_planets, List.mem_append, List.mem_map,
    List.mem_cons, List.not_mem_nil, or_false] at hp
  rcases hp with ⟨n, _, rfl⟩ | rfl <;> rfl

theorem placeholder_keys :
    placeholder_planets.map Prod.fst =
      ["Sun", "Moon", "Mercury", "Venus", "Mars", "Jupiter", "Saturn",
       "Uranus", "Neptune", "Pluto", "Ascendant"] := by
  rfl

/-! ## Helper lemmas: inverting the chart computation -/

theorem except_ok_bind {α β : Type} (a : α) (f : α → Except Unit β) :
    (Except.ok a >>= f) = f a := rfl

theorem except_error_bind {α β : Type} (f : α → Except Unit β) :
    ((Except.error () : Except Unit α) >>= f) = .error () := rfl

theorem except_bind_ok {α β : Type} {e : Except Unit α} {f : α → Except Unit β}
    {r : β} (h : (e >>= f) = .ok r) : ∃ a, e = .ok a ∧ f a = .ok r := by
  cases e with
  | error u =>
      rw [show u = () from rfl, except_error_bind] at h
      exact Except.noConfusion h
  | ok a => exact ⟨a, rfl, h⟩

theorem computeChartCore_ok_entries {env : Env} {inputs : NatalInputs}
    {eph : Ephemeris} {r : List (String × SignPlacement)}
    (h : computeChartCore env inputs eph = .ok r) :
    ∀ p ∈ r, ∃ L, p.2 = SignPlacement.mk (longitude_to_sign L).1
        (longitude_to_sign L).2 := by
  unfold computeChartCore at h
  obtain ⟨ts, h1, h⟩ := except_bind_ok h
  obtain ⟨tz, h2, h⟩ := except_bind_ok h
  obtain ⟨ldt, h3, h⟩ := except_bind_ok h
  obtain ⟨tst, h4, h⟩ := except_bind_ok h
  obtain ⟨earth, h5, h⟩ := except_bind_ok h
  obtain ⟨observer, h6, h⟩ := except_bind_ok h
  obtain ⟨bodies, h7, h⟩ := except_bind_ok h
  obtain ⟨planets, h8, h⟩ := except_bind_ok h
  have hr : (Except.ok (planets ++ [("Ascendant",
      SignPlacement.mk (best_match_ascendant (env.observeAltAz observer tst)).1
        (best_match_ascendant (env.observeAltAz observer tst)).2)]) :
      Except Unit (List (String × SignPlacement))) = Except.ok r := h
  rw [Except.ok.injEq] at hr
  subst hr
  intro p hp
  rcases List.mem_append.mp hp with hmem | hmem
  · obtain ⟨a, _, hfa⟩ := mapExcept_ok_mem h8 p hmem
    obtain ⟨lon, hlon, hpure⟩ := except_bind_ok hfa
    have hp2 : (Except.ok (a.1, SignPlacement.mk
        (longitude_to_sign lon).1 (longitude_to_sign lon).2) :
        Except Unit (String × SignPlacement)) = Except.ok p := hpure
    rw [Except.ok.injEq] at hp2
    exact ⟨lon, by rw [← hp2]⟩
  · rcases List.mem_singleton.mp hmem with rfl
    rcases best_match_ascendant_cases (env.observeAltAz observer tst) with
      hA | ⟨L, hA⟩
    · exact ⟨0, by rw [hA, longitude_to_sign_zero]⟩
    · exact ⟨L, by rw [hA]⟩

theorem computeChartCore_error_of_missing_key (env : Env) (inputs : NatalInputs)
    {eph : Ephemeris} {k : String}
    (hk : k ∈ bodies_spec.map Prod.snd) (hlk : eph.lookup k = .error ()) :
    computeChartCore env inputs eph = .error () := by
  obtain ⟨q, hq, hqk⟩ := List.mem_map.mp hk
  have hfq : (do
      let target ← eph.lookup q.2
      pure (q.1, target) : Except Unit (String × ℕ)) = .error () := by
    rw [hqk, hlk]
    rfl
  have hbodies : mapExcept (fun p => do
      let target ← eph.lookup p.2
      pure (p.1, target)) bodies_spec = .error () :=
    mapExcept_error_of_mem hq hfq
  unfold computeChartCore
  cases h1 : env.loadTimescale with
  | error u => cases u; simp only [h1, except_error_bind]
  | ok ts =>
  cases h2 : env.pytzTimezone inputs.timezone with
  | error u => cases u; simp only [h1, h2, except_ok_bind, except_error_bind]
  | ok tz =>
  cases h3 : env.localize tz inputs.birth_datetime with
  | error u => cases u; simp only [h1, h2, h3, except_ok_bind, except_error_bind]
  | ok ldt =>
  cases h4 : env.fromDatetime ts ldt with
  | error u => cases u; simp only [h1, h2, h3, h4, except_ok_bind, except_error_bind]
  | ok tst =>
  cases h5 : eph.lookup "earth" with
  | error u => cases u; simp only [h1, h2, h3, h4, h5, except_ok_bind, except_error_bind]
  | ok earth =>
  cases h6 : env.combineObserver earth inputs.latitude inputs.longitude with
  | error u =>
      cases u
      simp only [h1, h2, h3, h4, h5, h6, except_ok_bind, except_error_bind]
  | ok observer =>
      simp only [h1, h2, h3, h4, h5, h6, except_ok_bind, hbodies,
        except_error_bind]

theorem compute_natal_chart_core_error {env : Env} {inputs : NatalInputs}
    {eph : Ephemeris} (h : env.loadEph = some eph)
    (herr : computeChartCore env inputs eph = .error ()) :
    compute_natal_chart env inputs = placeholder_planets := by
  unfold compute_natal_chart
  rw [h]
  show (match computeChartCore env inputs eph with
        | .ok planets => planets
        | .error _ => placeholder_planets) = placeholder_planets
  rw [herr]

theorem compute_natal_chart_core_ok {env : Env} {inputs : NatalInputs}
    {eph : Ephemeris} {r : List (String × SignPlacement)}
    (h : env.loadEph = some eph)
    (hok : computeChartCore env inputs eph = .ok r) :
    compute_natal_chart env inputs = r := by
  unfold compute_natal_chart
  rw [h]
  show (match computeChartCore env inputs eph with
        | .ok planets => planets
        | .error _ => placeholder_planets) = r
  rw [hok]

/-! ## Claim theorems -/

/-- C1: `compute_natal_chart` never propagates an exception (it is a total
function of the environment and inputs); whenever the ephemeris cannot be
loaded, or any fault occurs inside the `try:` block, it returns the
complete placeholder record mapping the ten bodies and `"Ascendant"` to
sign `"Unknown"` with degree `0.0` — never a partial record. -/
theorem compute_natal_chart_fallback_complete (env : Env) (inputs : NatalInputs) :
    (env.loadEph = none → compute_natal_chart env inputs = placeholder_planets) ∧
    (∀ eph, env.loadEph = some eph →
      computeChartCore env inputs eph = .error () →
      compute_natal_chart env inputs = placeholder_planets) ∧
    placeholder_planets.map Prod.fst =
      ["Sun", "Moon", "Mercury", "Venus", "Mars", "Jupiter", "Saturn",
       "Uranus", "Neptune", "Pluto", "Ascendant"] ∧
    (∀ p ∈ placeholder_planets, p.2 = SignPlacement.mk "Unknown" 0) := by
  refine ⟨?_, ?_, placeholder_keys, placeholder_entries⟩
  · intro h
    unfold compute_natal_chart
    rw [h]
  · intro eph h herr
    exact compute_natal_chart_core_error h herr

/-- Witness for C1 at a concrete environment whose ephemeris load failed. -/
theorem compute_natal_chart_fallback_complete_witness :
    compute_natal_chart envNoEph someInputs = placeholder_planets :=
  (compute_natal_chart_fallback_complete envNoEph someInputs).1 rfl

/-- C2: `_longitude_to_sign` is total: for every rational longitude `L`
the sign index `⌊(L mod 360)/30⌋` is within the 12-sign list, the returned
sign is the sign at that index, and the degree is `(L mod 360) mod 30`,
lying in `[0, 30)`; `-10` wraps to the same result as `350`, namely
`("Pisces", 20.0)`, and each multiple `30k` yields the `k`-th sign with
degree `0.0`. -/
theorem longitude_to_sign_total_projection :
    (∀ L : ℚ,
      (⌊pymod L 360 / 30⌋).toNat < 12 ∧
      (longitude_to_sign L).1 = SIGN_ORDER.getD (⌊pymod L 360 / 30⌋).toNat "" ∧
      (longitude_to_sign L).2 = pymod (pymod L 360) 30 ∧
      0 ≤ (longitude_to_sign L).2 ∧ (longitude_to_sign L).2 < 30) ∧
    (longitude_to_sign (-10) = longitude_to_sign 350 ∧
     longitude_to_sign (-10) = ("Pisces", 20)) ∧
    (∀ k : Fin 12,
      longitude_to_sign (30 * (k : ℚ)) = (SIGN_ORDER.getD (k : ℕ) "", 0)) := by
  refine ⟨?_, ⟨?_, ?_⟩, ?_⟩
  · intro L
    have h : (⌊pymod L 360 / 30⌋).toNat < SIGN_ORDER.length := sign_index_lt L
    refine ⟨sign_index_lt L, ?_, rfl, longitude_to_sign_deg_nonneg L,
      longitude_to_sign_deg_lt L⟩
    rw [longitude_to_sign_eq]
    simp only []
    rw [List.getD_eq_getElem _ _ h, List.getD_eq_getElem _ _ h]
  · have hm10 : longitude_to_sign (-10) = ("Pisces", 20) := by
      rw [longitude_to_sign_eq]
      have h1 : pymod (-10) 360 = 350 := by unfold pymod; norm_num
      rw [h1]
      have h2 : pymod 350 30 = 20 := by unfold pymod; norm_num
      rw [h2]
      norm_num
      rfl
    have h350 : longitude_to_sign 350 = ("Pisces", 20) := by
      rw [longitude_to_sign_eq]
      have h1 : pymod 350 360 = 350 := by unfold pymod; norm_num
      rw [h1]
      have h2 : pymod 350 30 = 20 := by unfold pymod; norm_num
      rw [h2]
      norm_num
      rfl
    rw [hm10, h350]
  · rw [longitude_to_sign_eq]
    have h1 : pymod (-10) 360 = 350 := by unfold pymod; norm_num
    rw [h1]
    have h2 : pymod 350 30 = 20 := by unfold pymod; norm_num
    rw [h2]
    norm_num
    rfl
  · intro k
    fin_cases k <;>
      (rw [longitude_to_sign_eq] <;> norm_num [pymod] <;> rfl)

/-- Witness for C2 at the concrete longitude `365`. -/
theorem longitude_to_sign_total_projection_witness :
    0 ≤ (longitude_to_sign 365).2 ∧ (longitude_to_sign 365).2 < 30 :=
  ⟨(longitude_to_sign_total_projection.1 365).2.2.2.1,
   (longitude_to_sign_total_projection.1 365).2.2.2.2⟩

/-- C5: if every candidate of the ascendant search is skipped (its
observation raises one of the caught exception types), or the search
procedure faults (some candidate raises an uncatchable exception),
`_best_match_ascendant` returns the fixed default `("Aries", 0.0)` and, by
totality, never propagates a failure. -/
theorem best_match_ascendant_default_fallback (obs : ℚ → ObsResult) :
    ((∀ l ∈ candidates, obs l = ObsResult.caught) →
      best_match_ascendant obs = ("Aries", 0)) ∧
    ((∃ l ∈ candidates, obs l = ObsResult.uncaught) →
      best_match_ascendant obs = ("Aries", 0)) := by
  constructor
  · intro h
    have hrs : runSearch obs candidates (none, 0) = .ok (none, 0) :=
      runSearch_all_caught h _
    unfold best_match_ascendant searchOver
    rw [hrs]
    exact longitude_to_sign_zero
  · rintro ⟨c, hc, hu⟩
    exact searchOver_error (runSearch_error_of_uncaught hc hu _)

/-- Witness for C5: the all-skipped and the aborting oracles both yield
the default. -/
theorem best_match_ascendant_default_fallback_witness :
    best_match_ascendant (fun _ => ObsResult.caught) = ("Aries", 0) ∧
    best_match_ascendant (fun _ => ObsResult.uncaught) = ("Aries", 0) :=
  ⟨(best_match_ascendant_default_fallback _).1 (fun _ _ => rfl),
   (best_match_ascendant_default_fallback _).2 ⟨0, zero_mem_candidates, rfl⟩⟩

/-- C9: `compute_natal_chart` is deterministic — in the embedding every
external effect is an explicit field of `Env`, so two runs on the same
environment state and inputs agree; moreover the result does not depend on
the advisory `name` field. -/
theorem compute_natal_chart_deterministic (env : Env) (inputs : NatalInputs) :
    (∀ r1 r2, r1 = compute_natal_chart env inputs →
      r2 = compute_natal_chart env inputs → r1 = r2) ∧
    (∀ n, compute_natal_chart env
        { name := n, birth_datetime := inputs.birth_datetime,
          latitude := inputs.latitude, longitude := inputs.longitude,
          timezone := inputs.timezone } = compute_natal_chart env inputs) :=
  ⟨fun _ _ h1 h2 => h1.trans h2.symm, fun _ => rfl⟩

/-- Witness for C9 at a concrete environment and inputs. -/
theorem compute_natal_chart_deterministic_witness :
    compute_natal_chart envNoEph someInputs = compute_natal_chart envNoEph someInputs :=
  (compute_natal_chart_deterministic envNoEph someInputs).1 _ _ rfl rfl

/-- C10: when the timezone string cannot be resolved (`pytz.timezone`
raises) or the birth instant cannot be localized (`localize` raises),
`compute_natal_chart` returns the complete all-`"Unknown"` placeholder —
the same record as the ephemeris-unavailable fallback — rather than
surfacing a distinct timezone error. -/
theorem timezone_fault_placeholder (env : Env) (inputs : NatalInputs)
    (eph : Ephemeris) (hE : env.loadEph = some eph)
    (h : env.pytzTimezone inputs.timezone = .error () ∨
      ∃ tz, env.pytzTimezone inputs.timezone = .ok tz ∧
        env.localize tz inputs.birth_datetime = .error ()) :
    compute_natal_chart env inputs = placeholder_planets ∧
    compute_natal_chart { env with loadEph := none } inputs =
      placeholder_planets := by
  refine ⟨?_, rfl⟩
  have hcore : computeChartCore env inputs eph = .error () := by
    unfold computeChartCore
    cases h1 : env.loadTimescale with
    | error u => cases u; simp only [h1, except_error_bind]
    | ok ts =>
        rcases h with htz | ⟨tz, htz, hloc⟩
        · simp only [h1, htz, except_ok_bind, except_error_bind]
        · simp only [h1, htz, hloc, except_ok_bind, except_error_bind]
  exact compute_natal_chart_core_error hE hcore

/-- Witness for C10 at a concrete environment whose `pytz.timezone`
raises. -/
theorem timezone_fault_placeholder_witness :
    compute_natal_chart envBadTz someInputs = placeholder_planets :=
  (timezone_fault_placeholder envBadTz someInputs ephOK rfl (Or.inl rfl)).1

/-- C3: when every candidate observes successfully, `_best_match_ascendant`
scans exactly the 720 strictly increasing candidates `0.0, 0.5, ..., 359.5`,
scores each by `|altitude| + |azimuth - 90|`, and returns the projection of
the candidate with minimal score, ties broken in favour of the
first-encountered (lowest-index) candidate; in particular a unique
zero-score candidate is always selected. -/
theorem best_match_ascendant_argmin (obs : ℚ → ObsResult) (alt az : ℚ → ℚ)
    (h : ∀ l ∈ candidates, obs l = .ok (alt l) (az l)) :
    candidates.length = 720 ∧
    candidates.Pairwise (· < ·) ∧
    (∀ i : Fin 720, candidates.getD (i : ℕ) 0 = (i : ℚ) * 0.5) ∧
    (∃ lstar ∈ candidates,
      best_match_ascendant obs = longitude_to_sign lstar ∧
      (∀ l ∈ candidates, scoreOf alt az lstar ≤ scoreOf alt az l) ∧
      (∀ l ∈ candidates, scoreOf alt az l ≤ scoreOf alt az lstar →
        candidates.indexOf lstar ≤ candidates.indexOf l)) ∧
    (∀ l0 ∈ candidates, scoreOf alt az l0 = 0 →
      (∀ l ∈ candidates, l ≠ l0 → 0 < scoreOf alt az l) →
      best_match_ascendant obs = longitude_to_sign l0) := by
  obtain ⟨m, hmin, hres⟩ := searchOver_all_ok candidates candidates_ne_nil h
  have hm := List.argmin_eq_some_iff.mp hmin
  refine ⟨candidates_length, candidates_sorted, candidates_getD,
    ⟨m, hm.1, hres, hm.2.1, hm.2.2⟩, ?_⟩
  intro l0 hl0 hscore0 hpos
  have hm0 : scoreOf alt az m ≤ 0 := by
    have := hm.2.1 l0 hl0
    rw [hscore0] at this
    exact this
  have hmnn : 0 ≤ scoreOf alt az m := by
    unfold scoreOf
    positivity
  have heq : scoreOf alt az m = 0 := le_antisymm hm0 hmnn
  by_cases hml : m = l0
  · rw [hml] at hres
    exact hres
  · exact absurd heq (by have := hpos m hm.1 hml; linarith)

/-- Witness for C3: altitude equal to the candidate longitude and azimuth
due east make `0.0` the unique zero-score candidate, and it is selected. -/
theorem best_match_ascendant_argmin_witness :
    best_match_ascendant (fun l => ObsResult.ok l 90) = ("Aries", 0) := by
  have h := best_match_ascendant_argmin (fun l => ObsResult.ok l 90)
      (fun l => l) (fun _ => 90) (fun l _ => rfl)
  have hz : scoreOf (fun l => l) (fun _ => 90) 0 = 0 := by
    unfold scoreOf
    norm_num
  have hpos : ∀ l ∈ candidates, l ≠ 0 →
      0 < scoreOf (fun l => l) (fun _ => 90) l := by
    intro l hl hne
    have hlt : 0 < l := by
      rw [candidates_eq_cons] at hl
      rcases List.mem_cons.mp hl with rfl | hmem
      · exact absurd rfl hne
      · exact tailCandidates_pos hmem
    unfold scoreOf
    rw [abs_of_pos hlt]
    have : |(90 : ℚ) - 90| = 0 := by norm_num
    rw [this]
    linarith
  have hsel := h.2.2.2.2 0 zero_mem_candidates hz hpos
  rw [hsel, longitude_to_sign_zero]

/-- C4 counterexample: the oracle `obsFaultAtZero` faults (with an
exception type outside the inner handler's tuple) at the single candidate
`0.0` and observes every other candidate exactly on the horizon due east
(score `0`).  The claim predicts that candidate `0.0` alone is skipped and
the search continues, which over the remaining candidates selects `0.5`,
giving `("Aries", 0.5)`; the code instead aborts the whole search and
returns the outer-handler default `("Aries", 0.0)`. -/
theorem candidate_fault_abort_cex :
    obsFaultAtZero 0 = ObsResult.uncaught ∧
    (∀ l ∈ candidates, l ≠ 0 → obsFaultAtZero l = ObsResult.ok 0 90) ∧
    best_match_ascendant obsFaultAtZero = ("Aries", 0) ∧
    searchOver obsFaultAtZero (candidates.erase 0) = ("Aries", 1/2) ∧
    best_match_ascendant obsFaultAtZero ≠
      searchOver obsFaultAtZero (candidates.erase 0) := by
  have h1 : obsFaultAtZero 0 = ObsResult.uncaught := by
    unfold obsFaultAtZero
    rw [if_pos rfl]
  have h2 : ∀ l ∈ candidates, l ≠ 0 → obsFaultAtZero l = ObsResult.ok 0 90 := by
    intro l _ hne
    unfold obsFaultAtZero
    rw [if_neg hne]
  have h3 : best_match_ascendant obsFaultAtZero = ("Aries", 0) :=
    searchOver_error (runSearch_error_of_uncaught zero_mem_candidates h1 _)
  have herase : candidates.erase 0 = tailCandidates := by
    rw [candidates_eq_cons]
    exact List.erase_cons_head 0 tailCandidates
  have htailne : tailCandidates ≠ [] := by
    rw [tailCandidates_eq_cons]
    exact List.cons_ne_nil _ _
  have hallok : ∀ l ∈ tailCandidates,
      obsFaultAtZero l = .ok ((fun _ => (0:ℚ)) l) ((fun _ => (90:ℚ)) l) := by
    intro l hl
    unfold obsFaultAtZero
    rw [if_neg (ne_of_gt (tailCandidates_pos hl))]
  have h4 : searchOver obsFaultAtZero (candidates.erase 0) = ("Aries", 1/2) := by
    rw [herase]
    obtain ⟨m, hmin, hres⟩ := searchOver_all_ok tailCandidates htailne hallok
    have hconst : tailCandidates.argmin
        (scoreOf (fun _ => (0:ℚ)) (fun _ => (90:ℚ))) = some (1/2) := by
      rw [tailCandidates_eq_cons]
      exact argmin_const_score (fun a _ => rfl)
    rw [hconst] at hmin
    have hm : m = 1/2 := (Option.some.inj hmin.symm)
    rw [hres, hm, longitude_to_sign_half]
  refine ⟨h1, h2, h3, h4, ?_⟩
  rw [h3, h4]
  intro hcontra
  have : (0 : ℚ) = 1/2 := congrArg Prod.snd hcontra
  norm_num at this

/-- C4 amended: only candidates whose observation raises one of
`AttributeError`, `TypeError`, `ValueError` (the inner handler's tuple) are
skipped individually, with the search continuing over the remaining
candidates; a candidate raising any other exception kind aborts the whole
search, which then yields the outer default `("Aries", 0.0)`. -/
theorem candidate_fault_skip_amended :
    (∀ (obs : ℚ → ObsResult) (xs ys : List ℚ) (c : ℚ),
      obs c = ObsResult.caught →
      searchOver obs (xs ++ c :: ys) = searchOver obs (xs ++ ys)) ∧
    (∀ (obs : ℚ → ObsResult) (c : ℚ), c ∈ candidates →
      obs c = ObsResult.uncaught →
      best_match_ascendant obs = ("Aries", 0)) := by
  constructor
  · intro obs xs ys c hc
    unfold searchOver
    rw [runSearch_skip_caught hc]
  · intro obs c hmem hun
    exact searchOver_error (runSearch_error_of_uncaught hmem hun _)

/-- Witness for the amended C4: a caught-type fault at candidate `0.0` in
front of the grid tail is skipped, and an uncaught-type fault aborts. -/
theorem candidate_fault_skip_amended_witness :
    searchOver obsCaughtAtZero ([] ++ 0 :: tailCandidates) =
      searchOver obsCaughtAtZero ([] ++ tailCandidates) ∧
    best_match_ascendant obsFaultAtZero = ("Aries", 0) :=
  ⟨candidate_fault_skip_amended.1 obsCaughtAtZero [] tailCandidates 0
      (by unfold obsCaughtAtZero; rw [if_pos rfl]),
   candidate_fault_skip_amended.2 obsFaultAtZero 0 zero_mem_candidates
      (by unfold obsFaultAtZero; rw [if_pos rfl])⟩

/-- C6: every entry of every record returned by `compute_natal_chart` has
degree in `[0, 30)` and a sign that is one of the 12 fixed names or the
`"Unknown"` sentinel — on the success path, the placeholder path, and the
ascendant-fallback path alike. -/
theorem compute_natal_chart_output_invariant (env : Env) (inputs : NatalInputs) :
    ∀ p ∈ compute_natal_chart env inputs,
      (0 ≤ p.2.degree ∧ p.2.degree < 30) ∧
      (p.2.sign ∈ SIGN_ORDER ∨ p.2.sign = "Unknown") := by
  intro p hp
  cases hE : env.loadEph with
  | none =>
      have hc : compute_natal_chart env inputs = placeholder_planets := by
        unfold compute_natal_chart
        rw [hE]
      rw [hc] at hp
      rw [placeholder_entries p hp]
      exact ⟨⟨le_refl 0, by norm_num⟩, Or.inr rfl⟩
  | some eph =>
      cases hcore : computeChartCore env inputs eph with
      | error e =>
          cases e
          rw [compute_natal_chart_core_error hE hcore] at hp
          rw [placeholder_entries p hp]
          exact ⟨⟨le_refl 0, by norm_num⟩, Or.inr rfl⟩
      | ok r =>
          rw [compute_natal_chart_core_ok hE hcore] at hp
          obtain ⟨L, hL⟩ := computeChartCore_ok_entries hcore p hp
          rw [hL]
          exact ⟨⟨longitude_to_sign_deg_nonneg L, longitude_to_sign_deg_lt L⟩,
            Or.inl (longitude_to_sign_sign_mem L)⟩

/-- Witness for C6 at the `"Sun"` entry of a placeholder chart. -/
theorem compute_natal_chart_output_invariant_witness :
    (0 ≤ (("Sun", SignPlacement.mk "Unknown" 0) : String × SignPlacement).2.degree ∧
      (("Sun", SignPlacement.mk "Unknown" 0) : String × SignPlacement).2.degree < 30) ∧
    ((("Sun", SignPlacement.mk "Unknown" 0) : String × SignPlacement).2.sign ∈ SIGN_ORDER ∨
      (("Sun", SignPlacement.mk "Unknown" 0) : String × SignPlacement).2.sign = "Unknown") :=
  compute_natal_chart_output_invariant envNoEph someInputs
    ("Sun", SignPlacement.mk "Unknown" 0)
    (by
      have hc : compute_natal_chart envNoEph someInputs = placeholder_planets := rfl
      rw [hc]
      unfold placeholder_planets
      exact List.mem_append_left _ (List.mem_map.mpr
        ⟨"Sun", List.mem_cons_self _ _, rfl⟩))

/-- C7: in `compute_natal_chart`'s `bodies` dict, Jupiter, Saturn, Uranus,
Neptune and Pluto are looked up under their `"... barycenter"` ephemeris
keys while Sun, Moon, Mercury, Venus and Mars are looked up as individual
bodies; these keys are genuinely queried: if the ephemeris fails to resolve
any one of them, the whole chart degrades to the placeholder. -/
theorem bodies_barycenter_keys :
    (bodies_spec.lookup "Sun" = some "sun" ∧
     bodies_spec.lookup "Moon" = some "moon" ∧
     bodies_spec.lookup "Mercury" = some "mercury" ∧
     bodies_spec.lookup "Venus" = some "venus" ∧
     bodies_spec.lookup "Mars" = some "mars" ∧
     bodies_spec.lookup "Jupiter" = some "jupiter barycenter" ∧
     bodies_spec.lookup "Saturn" = some "saturn barycenter" ∧
     bodies_spec.lookup "Uranus" = some "uranus barycenter" ∧
     bodies_spec.lookup "Neptune" = some "neptune barycenter" ∧
     bodies_spec.lookup "Pluto" = some "pluto barycenter") ∧
    (∀ (env : Env) (inputs : NatalInputs) (eph : Ephemeris) (k : String),
      env.loadEph = some eph → k ∈ bodies_spec.map Prod.snd →
      eph.lookup k = .error () →
      compute_natal_chart env inputs = placeholder_planets) := by
  refine ⟨⟨rfl, rfl, rfl, rfl, rfl, rfl, rfl, rfl, rfl, rfl⟩, ?_⟩
  intro env inputs eph k hE hk hlk
  exact compute_natal_chart_core_error hE
    (computeChartCore_error_of_missing_key env inputs hk hlk)

/-- Witness for C7: an otherwise healthy ephemeris missing only
`"jupiter barycenter"` degrades the chart to the placeholder. -/
theorem bodies_barycenter_keys_witness :
    compute_natal_chart envNoJupiterBary someInputs = placeholder_planets :=
  bodies_barycenter_keys.2 envNoJupiterBary someInputs ephNoJupiterBary
    "jupiter barycenter" rfl
    (by unfold bodies_spec; simp)
    (by
      show (if "jupiter barycenter" = "jupiter barycenter"
            then (Except.error () : Except Unit ℕ) else .ok 0) = .error ()
      rw [if_pos rfl])

theorem dominant_element_placeholder_eval :
    dominant_element placeholder_planets = "Earth" := by
  have hstep : ∀ (t : ElemTotals) (name : String),
      bumpElem t ((SIGN_ELEMENTS.lookup
          (SignPlacement.mk "Unknown" (0:ℚ)).sign).getD "Earth")
        ((element_weights.lookup name).getD 1) =
      { t with earth := t.earth + (element_weights.lookup name).getD 1 } := by
    intro t name
    have h : (SIGN_ELEMENTS.lookup
        (SignPlacement.mk "Unknown" (0:ℚ)).sign).getD "Earth" = "Earth" := rfl
    rw [h]
    unfold bumpElem
    rw [if_neg (by decide), if_pos rfl]
  rw [show placeholder_planets =
    [("Sun", SignPlacement.mk "Unknown" 0), ("Moon", SignPlacement.mk "Unknown" 0),
     ("Mercury", SignPlacement.mk "Unknown" 0), ("Venus", SignPlacement.mk "Unknown" 0),
     ("Mars", SignPlacement.mk "Unknown" 0), ("Jupiter", SignPlacement.mk "Unknown" 0),
     ("Saturn", SignPlacement.mk "Unknown" 0), ("Uranus", SignPlacement.mk "Unknown" 0),
     ("Neptune", SignPlacement.mk "Unknown" 0), ("Pluto", SignPlacement.mk "Unknown" 0),
     ("Ascendant", SignPlacement.mk "Unknown" 0)] from rfl]
  unfold dominant_element
  simp only [List.foldl_cons, List.foldl_nil, hstep]
  simp only [show ((element_weights.lookup "Sun").getD 1 : ℚ) = 3 from rfl,
    show ((element_weights.lookup "Moon").getD 1 : ℚ) = 3 from rfl,
    show ((element_weights.lookup "Mercury").getD 1 : ℚ) = 2 from rfl,
    show ((element_weights.lookup "Venus").getD 1 : ℚ) = 2 from rfl,
    show ((element_weights.lookup "Mars").getD 1 : ℚ) = 2 from rfl,
    show ((element_weights.lookup "Jupiter").getD 1 : ℚ) = 1 from rfl,
    show ((element_weights.lookup "Saturn").getD 1 : ℚ) = 1 from rfl,
    show ((element_weights.lookup "Uranus").getD 1 : ℚ) = 1 from rfl,
    show ((element_weights.lookup "Neptune").getD 1 : ℚ) = 1 from rfl,
    show ((element_weights.lookup "Pluto").getD 1 : ℚ) = 1 from rfl,
    show ((element_weights.lookup "Ascendant").getD 1 : ℚ) = 3 from rfl]
  unfold pymax_first
  simp only [List.foldl_cons, List.foldl_nil]
  norm_num

theorem dominant_element_allTaurus_eval :
    dominant_element allTaurus = "Earth" := by
  have hstep : ∀ (t : ElemTotals) (name : String),
      bumpElem t ((SIGN_ELEMENTS.lookup
          (SignPlacement.mk "Taurus" (0:ℚ)).sign).getD "Earth")
        ((element_weights.lookup name).getD 1) =
      { t with earth := t.earth + (element_weights.lookup name).getD 1 } := by
    intro t name
    have h : (SIGN_ELEMENTS.lookup
        (SignPlacement.mk "Taurus" (0:ℚ)).sign).getD "Earth" = "Earth" := rfl
    rw [h]
    unfold bumpElem
    rw [if_neg (by decide), if_pos rfl]
  rw [show allTaurus =
    [("Sun", SignPlacement.mk "Taurus" 0), ("Moon", SignPlacement.mk "Taurus" 0),
     ("Mercury", SignPlacement.mk "Taurus" 0), ("Venus", SignPlacement.mk "Taurus" 0),
     ("Mars", SignPlacement.mk "Taurus" 0), ("Jupiter", SignPlacement.mk "Taurus" 0),
     ("Saturn", SignPlacement.mk "Taurus" 0), ("Uranus", SignPlacement.mk "Taurus" 0),
     ("Neptune", SignPlacement.mk "Taurus" 0), ("Pluto", SignPlacement.mk "Taurus" 0),
     ("Ascendant", SignPlacement.mk "Taurus" 0)] from rfl]
  unfold dominant_element
  simp only [List.foldl_cons, List.foldl_nil, hstep]
  simp only [show ((element_weights.lookup "Sun").getD 1 : ℚ) = 3 from rfl,
    show ((element_weights.lookup "Moon").getD 1 : ℚ) = 3 from rfl,
    show ((element_weights.lookup "Mercury").getD 1 : ℚ) = 2 from rfl,
    show ((element_weights.lookup "Venus").getD 1 : ℚ) = 2 from rfl,
    show ((element_weights.lookup "Mars").getD 1 : ℚ) = 2 from rfl,
    show ((element_weights.lookup "Jupiter").getD 1 : ℚ) = 1 from rfl,
    show ((element_weights.lookup "Saturn").getD 1 : ℚ) = 1 from rfl,
    show ((element_weights.lookup "Uranus").getD 1 : ℚ) = 1 from rfl,
    show ((element_weights.lookup "Neptune").getD 1 : ℚ) = 1 from rfl,
    show ((element_weights.lookup "Pluto").getD 1 : ℚ) = 1 from rfl,
    show ((element_weights.lookup "Ascendant").getD 1 : ℚ) = 3 from rfl]
  unfold pymax_first
  simp only [List.foldl_cons, List.foldl_nil]
  norm_num

/-- C8 (code bug): `build_csv_row` does not treat `"Unknown"` as a
distinguishable sentinel throughout: `_dominant_element` maps an
`"Unknown"` sign through `SIGN_ELEMENTS.get(sign, "Earth")`, whose
`"Earth"` default credits the full weight of a not-computed body to the
Earth element.  The all-`"Unknown"` placeholder chart therefore reports
the same dominant element (`"Earth"`, via the row's `Element` field) as a
chart with every body in Taurus, a real Earth sign — even though
`SIGN_ELEMENTS` itself assigns no element to `"Unknown"`. -/
theorem dominant_element_unknown_conflation :
    dominant_element placeholder_planets = "Earth" ∧
    dominant_element allTaurus = dominant_element placeholder_planets ∧
    SIGN_ELEMENTS.lookup "Unknown" = none ∧
    SIGN_ELEMENTS.lookup "Taurus" = some "Earth" ∧
    (build_csv_row placeholder_planets someInputs).lookup "Element" =
      some "Earth" := by
  refine ⟨dominant_element_placeholder_eval, ?_, rfl, rfl, ?_⟩
  · rw [dominant_element_allTaurus_eval, dominant_element_placeholder_eval]
  · have h : (build_csv_row placeholder_planets someInputs).lookup "Element" =
        some (dominant_element placeholder_planets) := rfl
    rw [h, dominant_element_placeholder_eval]
